import Mathlib

/-!
Verification of the password-generator repository.

Shallow embedding notes:
* `crypto.getRandomValues` (the secure entropy source) is modelled as an
  unconstrained stream `rnd : Nat → Nat` of raw 32-bit draws; the code only
  ever reduces a draw modulo a bound, so the 2^32 cap is irrelevant to the
  claims proved here.
* IEEE doubles are modelled by `ℚ`.  Every concrete number a settled claim
  touches (26^4, 500000/2, 456976/250000, powers below 2^53) is exact in
  binary64, so the rational model agrees with the JavaScript float
  computation at those points.  `Math.log2`, the one transcendental the
  simulator uses, is abstracted as a function argument `jsLog2 : ℚ → ℚ`;
  the facts assumed of it (e.g. `jsLog2 4 = 2`) are exact IEEE identities.
* JavaScript division yields NaN or ±Infinity when the divisor is zero and
  never a finite number; `jsDiv` returns `none` in exactly that case, so a
  `some` value means "finite, well-defined result".
-/

namespace PasswordGen

/-- Character-class membership flags and sizes for generation
(`src/types.ts`).  `length` and `wordCount` are TypeScript numbers the UI
keeps integral, so they are embedded as `ℤ` to keep the non-positive cases
representable.  The word-based generator reads the language under the field
name `language` (`options.language` in `passwordUtils.ts`). -/
inductive Language where
  | en
  | es
deriving DecidableEq, Repr

structure PasswordOptions where
  length : ℤ
  includeLowercase : Bool
  includeUppercase : Bool
  includeNumbers : Bool
  includeSymbols : Bool
  excludeAmbiguous : Bool
  wordCount : ℤ
  wordSeparator : String
  language : Language
deriving Repr

/-- Modelled from the spec: the character-class constants live in
`src/constants/characterSets.ts`, which is not among the provided source
files.  The spec describes them as the lowercase letters, uppercase
letters, digits and symbols, with a set of visually ambiguous glyphs that
can be excluded.  No settled claim depends on the exact glyphs, only on
how `generatePassword` assembles and filters them. -/
def LOWERCASE_CHARS : String := "abcdefghijklmnopqrstuvwxyz"

/-- Modelled from the spec: uppercase character class (see
`LOWERCASE_CHARS`). -/
def UPPERCASE_CHARS : String := "ABCDEFGHIJKLMNOPQRSTUVWXYZ"

/-- Modelled from the spec: digit character class (see
`LOWERCASE_CHARS`). -/
def NUMBER_CHARS : String := "0123456789"

/-- Modelled from the spec: symbol character class (see
`LOWERCASE_CHARS`). -/
def SYMBOL_CHARS : String := "!@#$%^&*()_+-=[];:,.<>?"

/-- Modelled from the spec: visually confusable glyphs removed when
`excludeAmbiguous` is set (see `LOWERCASE_CHARS`). -/
def AMBIGUOUS_CHARS : String := "Il1O0o"

/-- Modelled from the spec: the word lists in `src/constants/wordLists.ts`
are elided in the provided `PasswordGenerator.tsx` copy beyond their first
eight entries; the visible entries are kept.  No settled claim depends on
the list contents, only on the lists being non-empty sequences of
words. -/
def ENGLISH_WORDS : List String :=
  ["love", "star", "rock", "blue", "dragon", "red", "black", "angel"]

/-- Modelled from the spec: Spanish word list (see `ENGLISH_WORDS`). -/
def SPANISH_WORDS : List String :=
  ["agua", "aire", "alma", "amigo", "amor", "angel", "arbol", "arena"]

/-- `WORDS_BY_LANGUAGE` from `src/constants/wordLists.ts`. -/
def WORDS_BY_LANGUAGE : Language → List String
  | .en => ENGLISH_WORDS
  | .es => SPANISH_WORDS

/-- Failure modes of `generatePassword`: the explicit
`throw new Error("At least one character set must be selected")`, and the
`RangeError` raised by `new Uint32Array(length)` inside
`getRandomNumbers` when `length` is negative. -/
inductive GenError where
  | invalidConfiguration (msg : String)
  | rangeError
deriving DecidableEq, Repr

/-- The alphabet `generatePassword` assembles before the emptiness check:
concatenate the enabled classes in source order, then drop the ambiguous
glyphs when `excludeAmbiguous` is set (`passwordUtils.ts` lines 13-23). -/
def assembleChars (o : PasswordOptions) : List Char :=
  let chars :=
    (if o.includeLowercase then LOWERCASE_CHARS.data else [])
      ++ (if o.includeUppercase then UPPERCASE_CHARS.data else [])
      ++ (if o.includeNumbers then NUMBER_CHARS.data else [])
      ++ (if o.includeSymbols then SYMBOL_CHARS.data else [])
  if o.excludeAmbiguous then
    chars.filter (fun c => !(AMBIGUOUS_CHARS.data.contains c))
  else chars

/-- `generatePassword` from `src/utils/passwordUtils.ts`.  `rnd i` is the
i-th raw value of the `Uint32Array` returned by `getRandomNumbers`;
character i of the output is `chars[rnd i % chars.length]`.  The `getD`
default is never reached: the index is reduced modulo the (positive)
alphabet length. -/
def generatePassword (o : PasswordOptions) (rnd : ℕ → ℕ) :
    Except GenError String :=
  let chars := assembleChars o
  if chars.length = 0 then
    .error (.invalidConfiguration "At least one character set must be selected")
  else if o.length < 0 then
    .error .rangeError
  else
    .ok ⟨(List.range o.length.toNat).map
          (fun i => chars.getD (rnd i % chars.length) 'a')⟩

/-- `capitalizeFirstLetter` from `generateWordBasedPassword`:
`word.charAt(0).toUpperCase() + word.slice(1)`. -/
def capitalizeFirstLetter (w : String) : String :=
  match w.data with
  | [] => ""
  | c :: cs => String.mk (c.toUpper :: cs)

/-- The token list `generateWordBasedPassword` joins:
`wordCount` draws `capitalizeFirstLetter(wordList[getRandomNumber(wordList.length)])`
(`Array.from \x7blength: wordCount\x7d` clamps a negative count to zero,
hence `Int.toNat`), then, when `includeNumbers` is set, one extra token
`(getRandomNumber(900) + 100).toString()`.  `rnd i` is the raw 32-bit
value behind the i-th `getRandomNumber` call; `getRandomNumber max`
reduces it modulo `max`. -/
def wordTokens (o : PasswordOptions) (rnd : ℕ → ℕ) : List String :=
  let wordList := WORDS_BY_LANGUAGE o.language
  (List.range o.wordCount.toNat).map
      (fun i => capitalizeFirstLetter (wordList.getD (rnd i % wordList.length) ""))
    ++ (if o.includeNumbers then [Nat.repr (rnd o.wordCount.toNat % 900 + 100)] else [])

/-- `generateWordBasedPassword` from `src/utils/passwordUtils.ts`:
`words.join(options.wordSeparator)`. -/
def generateWordBasedPassword (o : PasswordOptions) (rnd : ℕ → ℕ) : String :=
  String.intercalate o.wordSeparator (wordTokens o rnd)

/-- JavaScript division: `a / b` is a finite number exactly when `b ≠ 0`
(with `b = 0` it is NaN or ±Infinity, never a finite value and in
particular never 0). -/
def jsDiv (a b : ℚ) : Option ℚ :=
  if b = 0 then none else some (a / b)

/-- The six hardware keys of `HARDWARE_PROFILES`
(`BruteForceSimulator.tsx`). -/
inductive Hardware where
  | cpu_basic
  | cpu_multi
  | gpu_gaming
  | gpu_mining
  | cluster_small
  | cluster_large
deriving DecidableEq, Repr

/-- The numeric fields of a hardware profile: `baseSpeed` in hashes/s and
`powerCost` in kW (named kW/h in the source comments). -/
structure HardwareProfile where
  baseSpeed : ℚ
  powerCost : ℚ
deriving Repr

/-- `HARDWARE_PROFILES` from `BruteForceSimulator.tsx` (numeric fields). -/
def HARDWARE_PROFILES : Hardware → HardwareProfile
  | .cpu_basic => { baseSpeed := 500000, powerCost := 65 / 1000 }
  | .cpu_multi => { baseSpeed := 2000000, powerCost := 125 / 1000 }
  | .gpu_gaming => { baseSpeed := 100000000, powerCost := 25 / 100 }
  | .gpu_mining => { baseSpeed := 500000000, powerCost := 3 / 10 }
  | .cluster_small => { baseSpeed := 2000000000, powerCost := 8 / 10 }
  | .cluster_large => { baseSpeed := 10000000000, powerCost := 25 / 10 }

inductive MethodId where
  | sequential
  | dictionary
  | hybrid
deriving DecidableEq, Repr

/-- The numeric fields of an `AttackMethod` (`BruteForceSimulator.tsx`). -/
structure AttackMethod where
  id : MethodId
  baseSpeed : ℚ
  successRate : ℚ
  complexityMultiplier : ℚ
deriving Repr

/-- `ATTACK_METHODS[0]`: the sequential brute-force method. -/
def sequentialMethod : AttackMethod :=
  { id := .sequential, baseSpeed := 1, successRate := 1, complexityMultiplier := 1 }

/-- `ATTACK_METHODS[1]`: the dictionary method. -/
def dictionaryMethod : AttackMethod :=
  { id := .dictionary, baseSpeed := 100, successRate := 15 / 100,
    complexityMultiplier := 1 / 10 }

/-- `ATTACK_METHODS[2]`: the hybrid method. -/
def hybridMethod : AttackMethod :=
  { id := .hybrid, baseSpeed := 10, successRate := 45 / 100,
    complexityMultiplier := 1 / 2 }

/-- `ATTACK_METHODS` from `BruteForceSimulator.tsx`. -/
def ATTACK_METHODS : List AttackMethod :=
  [sequentialMethod, dictionaryMethod, hybridMethod]

/-- `calculatePasswordSpace` (`BruteForceSimulator.tsx` lines 206-213):
`Math.ceil(Math.pow(charset, length) * method.complexityMultiplier)`. -/
def calculatePasswordSpace (length : ℕ) (charset : ℕ) (m : AttackMethod) : ℤ :=
  ⌈(charset : ℚ) ^ length * m.complexityMultiplier⌉

/-- `calculateHashingSpeed` (`BruteForceSimulator.tsx` lines 215-222):
`Math.floor(HARDWARE_PROFILES[hardware].baseSpeed / Math.max(1, Math.log2(passwordLength)))`.
`jsLog2` stands for `Math.log2`; the `baseSpeed` parameter is declared but
never read by the body. -/
def calculateHashingSpeed (jsLog2 : ℚ → ℚ) (baseSpeed : ℚ) (hardware : Hardware)
    (passwordLength : ℚ) : ℤ :=
  ⌊(HARDWARE_PROFILES hardware).baseSpeed / max 1 (jsLog2 passwordLength)⌋

/-- `calculateEnergyCost` (`BruteForceSimulator.tsx` lines 224-229):
`timeInHours * HARDWARE_PROFILES[hardware].powerCost`. -/
def calculateEnergyCost (timeInHours : ℚ) (hardware : Hardware) : ℚ :=
  timeInHours * (HARDWARE_PROFILES hardware).powerCost

/-- The `attempts` computed by one `animate` tick (lines 287-290):
`Math.min(Math.floor(elapsed * hashingSpeed * attackMethod.baseSpeed), totalSpace)`. -/
def animateAttempts (elapsed : ℚ) (hashingSpeed : ℤ) (m : AttackMethod)
    (totalSpace : ℤ) : ℤ :=
  min ⌊elapsed * (hashingSpeed : ℚ) * m.baseSpeed⌋ totalSpace

/-- The `progress` computed by one `animate` tick (line 291):
`(attempts / totalSpace) * 100`, a finite value only when the search space
is non-zero. -/
def animateProgress (attempts totalSpace : ℤ) : Option ℚ :=
  (jsDiv (attempts : ℚ) (totalSpace : ℚ)).map (fun p => p * 100)

/-- The `passwordsPerWatt` computed by one `animate` tick (line 297):
`attempts / (energyCost * 1000)`, with no guard on the divisor. -/
def animateEfficiency (attempts : ℤ) (energyCost : ℚ) : Option ℚ :=
  jsDiv (attempts : ℚ) (energyCost * 1000)

/-- `estimatedTimeToComplete` as set by `animate` (lines 322-323):
`totalSpace / (hashingSpeed * attackMethod.baseSpeed)`, with `totalSpace`
and `hashingSpeed` computed in the surrounding `useEffect` from the
password length, charset size, method and hardware. -/
def estimatedTimeToComplete (jsLog2 : ℚ → ℚ) (length : ℕ) (charset : ℕ)
    (m : AttackMethod) (hardware : Hardware) : ℚ :=
  (calculatePasswordSpace length charset m : ℚ) /
    ((calculateHashingSpeed jsLog2 (HARDWARE_PROFILES hardware).baseSpeed
        hardware (length : ℚ) : ℚ) * m.baseSpeed)

/-- One sample of the `graphData` time series (`BruteForceSimulator.tsx`
lines 299-315).  The source stores `hashingSpeed` under the `attempts`
field. -/
structure GraphSample where
  time : ℚ
  attempts : ℤ
  energyUsage : ℚ
  efficiency : Option ℚ
  progress : Option ℚ
deriving Repr

/-- The `setGraphData` update of one tick (lines 299-315): append the new
sample, then `slice(-30)` (keep the last 30, in order) when the buffer
exceeds 30 entries. -/
def pushGraphSample (prev : List GraphSample) (s : GraphSample) :
    List GraphSample :=
  let newData := prev ++ [s]
  if 30 < newData.length then newData.drop (newData.length - 30) else newData

/-- The `simulation` state object of `BruteForceSimulator`. -/
structure BruteForceSimulation where
  method : MethodId
  isRunning : Bool
  progress : ℚ
  hardware : Hardware
deriving Repr

/-- The `stats` state object of `BruteForceSimulator`.  `passwordsPerWatt`
is `Option ℚ` because the tick computation can produce a non-finite
value; `handleReset` stores the literal 0 (`some 0`). -/
structure SimulationStats where
  attempts : ℤ
  timeElapsed : ℚ
  remainingCombinations : ℤ
  successRate : ℚ
  estimatedTimeToComplete : ℚ
  energyCost : ℚ
  passwordsPerWatt : Option ℚ
deriving Repr

/-- The component state touched by `handleReset`. -/
structure SimulatorState where
  simulation : BruteForceSimulation
  stats : SimulationStats
  passwordLength : ℕ
  passwordCharset : ℕ
  graphData : List GraphSample
deriving Repr

/-- `handleReset` (`BruteForceSimulator.tsx` lines 353-369): stop the
simulation, zero the progress and all stats (recomputing
`remainingCombinations` from `ATTACK_METHODS[0]`), and clear the graph
buffer. -/
def handleReset (s : SimulatorState) : SimulatorState :=
  { s with
    simulation := { s.simulation with isRunning := false, progress := 0 },
    stats :=
      { attempts := 0, timeElapsed := 0,
        remainingCombinations :=
          calculatePasswordSpace s.passwordLength s.passwordCharset
            (ATTACK_METHODS.getD 0 sequentialMethod),
        successRate := 0, estimatedTimeToComplete := 0, energyCost := 0,
        passwordsPerWatt := some 0 },
    graphData := [] }

/-- Claim C1: when the assembled character set is non-empty (and the
configured length is a non-negative integer, per the data-model invariant
that `length` is a positive integer), `generatePassword` succeeds with a
string of exactly `options.length` characters, each drawn from the
assembled character set. -/
theorem C1_charset_password_length_and_membership (o : PasswordOptions)
    (rnd : ℕ → ℕ) (hne : assembleChars o ≠ []) (hlen : 0 ≤ o.length) :
    ∃ s : String, generatePassword o rnd = .ok s ∧
      (s.length : ℤ) = o.length ∧ ∀ c ∈ s.data, c ∈ assembleChars o := by
  have h0 : (assembleChars o).length ≠ 0 := by
    simpa [List.length_eq_zero] using hne
  refine ⟨⟨(List.range o.length.toNat).map
      (fun i => (assembleChars o).getD (rnd i % (assembleChars o).length) 'a')⟩,
    ?_, ?_, ?_⟩
  · simp [generatePassword, h0, not_lt.mpr hlen]
  · simp [String.length, Int.toNat_of_nonneg hlen]
  · intro c hc
    simp only [List.mem_map, List.mem_range] at hc
    obtain ⟨i, _, rfl⟩ := hc
    have hlt : rnd i % (assembleChars o).length < (assembleChars o).length :=
      Nat.mod_lt _ (Nat.pos_of_ne_zero h0)
    rw [List.getD_eq_getElem _ _ hlt]
    exact List.getElem_mem hlt

/-- Witness for C1 at a concrete configuration: length 3, lowercase only. -/
theorem C1_witness :
    ∃ s : String,
      generatePassword
          { length := 3, includeLowercase := true, includeUppercase := false,
            includeNumbers := false, includeSymbols := false,
            excludeAmbiguous := false, wordCount := 0, wordSeparator := "",
            language := .en } (fun i => i) = .ok s ∧
        (s.length : ℤ) = (3 : ℤ) ∧
        ∀ c ∈ s.data,
          c ∈ assembleChars
              { length := 3, includeLowercase := true, includeUppercase := false,
                includeNumbers := false, includeSymbols := false,
                excludeAmbiguous := false, wordCount := 0, wordSeparator := "",
                language := .en } :=
  C1_charset_password_length_and_membership _ _ (by decide) (by decide)

/-- Claim C2: with all four character-class flags false the assembled
alphabet is empty, so `generatePassword` fails with the
invalid-configuration error, whatever the length and the random draws. -/
theorem C2_all_flags_false_fails (o : PasswordOptions) (rnd : ℕ → ℕ)
    (hl : o.includeLowercase = false) (hu : o.includeUppercase = false)
    (hn : o.includeNumbers = false) (hs : o.includeSymbols = false) :
    generatePassword o rnd =
      .error (.invalidConfiguration
        "At least one character set must be selected") := by
  have hempty : assembleChars o = [] := by
    simp [assembleChars, hl, hu, hn, hs]
  simp [generatePassword, hempty]

/-- Witness for C2 at a concrete configuration (length 12, all flags
off). -/
theorem C2_witness :
    generatePassword
        { length := 12, includeLowercase := false, includeUppercase := false,
          includeNumbers := false, includeSymbols := false,
          excludeAmbiguous := true, wordCount := 0, wordSeparator := "",
          language := .en } (fun i => i) =
      .error (.invalidConfiguration
        "At least one character set must be selected") :=
  C2_all_flags_false_fails _ _ rfl rfl rfl rfl

/-- Counterexample to claim C9 as stated: at length 0 with lowercase
enabled, `generatePassword` does NOT fail with an InvalidConfiguration
error; it returns the empty password string. -/
theorem C9_counterexample :
    generatePassword
        { length := 0, includeLowercase := true, includeUppercase := false,
          includeNumbers := false, includeSymbols := false,
          excludeAmbiguous := false, wordCount := 0, wordSeparator := "",
          language := .en } (fun _ => 0) = .ok "" := by
  rfl

/-- Claim C9 amended: the code has no non-positive-length check.  With a
non-empty alphabet, length 0 succeeds and returns the empty string; a
negative length fails, but with the `RangeError` thrown by the
`Uint32Array` allocation in `getRandomNumbers`, not with the
InvalidConfiguration error (which is raised only for an empty
alphabet). -/
theorem C9_amended_nonpositive_length (o : PasswordOptions) (rnd : ℕ → ℕ)
    (hne : assembleChars o ≠ []) :
    (o.length = 0 → generatePassword o rnd = .ok "") ∧
    (o.length < 0 → generatePassword o rnd = .error .rangeError) := by
  have h0 : (assembleChars o).length ≠ 0 := by
    simpa [List.length_eq_zero] using hne
  constructor
  · intro hz
    simp [generatePassword, h0, hz]
  · intro hneg
    simp [generatePassword, h0, hneg]

/-- Witness for the amended C9 at concrete configurations: length 0
returns the empty string, length -1 raises the RangeError. -/
theorem C9_amended_witness :
    generatePassword
        { length := 0, includeLowercase := false, includeUppercase := true,
          includeNumbers := false, includeSymbols := false,
          excludeAmbiguous := false, wordCount := 0, wordSeparator := "",
          language := .en } (fun _ => 7) = .ok "" ∧
    generatePassword
        { length := -1, includeLowercase := false, includeUppercase := true,
          includeNumbers := false, includeSymbols := false,
          excludeAmbiguous := false, wordCount := 0, wordSeparator := "",
          language := .en } (fun _ => 7) = .error .rangeError :=
  ⟨(C9_amended_nonpositive_length _ (fun _ => 7) (by decide)).1 rfl,
   (C9_amended_nonpositive_length _ (fun _ => 7) (by decide)).2 (by decide)⟩

/-- Claim C3: with a non-negative `wordCount` (the data model requires a
positive integer), the word-based passphrase is the `wordSeparator`-join,
in draw order, of exactly `wordCount` tokens that are words of the
configured language's word list with the first letter capitalized, plus
exactly one extra token — a number in [100, 999] — when `includeNumbers`
is set. -/
theorem C3_word_password_token_structure (o : PasswordOptions) (rnd : ℕ → ℕ)
    (hwc : 0 ≤ o.wordCount) :
    ∃ ws rest : List String,
      wordTokens o rnd = ws.map capitalizeFirstLetter ++ rest ∧
      (ws.length : ℤ) = o.wordCount ∧
      (∀ w ∈ ws, w ∈ WORDS_BY_LANGUAGE o.language) ∧
      (if o.includeNumbers then
        ∃ n : ℕ, 100 ≤ n ∧ n ≤ 999 ∧ rest = [Nat.repr n]
       else rest = []) ∧
      generateWordBasedPassword o rnd =
        String.intercalate o.wordSeparator (wordTokens o rnd) := by
  have hpos : 0 < (WORDS_BY_LANGUAGE o.language).length := by
    cases o.language <;> decide
  refine ⟨(List.range o.wordCount.toNat).map
      (fun i => (WORDS_BY_LANGUAGE o.language).getD
        (rnd i % (WORDS_BY_LANGUAGE o.language).length) ""),
    if o.includeNumbers then [Nat.repr (rnd o.wordCount.toNat % 900 + 100)]
      else [],
    ?_, ?_, ?_, ?_, rfl⟩
  · simp [wordTokens, List.map_map]
  · simp [Int.toNat_of_nonneg hwc]
  · intro w hw
    simp only [List.mem_map, List.mem_range] at hw
    obtain ⟨i, _, rfl⟩ := hw
    have hlt : rnd i % (WORDS_BY_LANGUAGE o.language).length <
        (WORDS_BY_LANGUAGE o.language).length := Nat.mod_lt _ hpos
    rw [List.getD_eq_getElem _ _ hlt]
    exact List.getElem_mem hlt
  · by_cases hn : o.includeNumbers
    · simp only [hn, if_true]
      refine ⟨rnd o.wordCount.toNat % 900 + 100, by omega, ?_, rfl⟩
      have := Nat.mod_lt (rnd o.wordCount.toNat) (show 0 < 900 by decide)
      omega
    · simp [hn]

/-- Witness for C3 at a concrete configuration: two English words plus a
numeric suffix, joined by a dash. -/
theorem C3_witness :
    ∃ ws rest : List String,
      wordTokens
          { length := 0, includeLowercase := false, includeUppercase := false,
            includeNumbers := true, includeSymbols := false,
            excludeAmbiguous := false, wordCount := 2, wordSeparator := "-",
            language := .en } (fun i => i) =
        ws.map capitalizeFirstLetter ++ rest ∧
      (ws.length : ℤ) = (2 : ℤ) ∧
      (∀ w ∈ ws, w ∈ WORDS_BY_LANGUAGE Language.en) ∧
      (∃ n : ℕ, 100 ≤ n ∧ n ≤ 999 ∧ rest = [Nat.repr n]) ∧
      generateWordBasedPassword
          { length := 0, includeLowercase := false, includeUppercase := false,
            includeNumbers := true, includeSymbols := false,
            excludeAmbiguous := false, wordCount := 2, wordSeparator := "-",
            language := .en } (fun i => i) =
        String.intercalate "-"
          (wordTokens
            { length := 0, includeLowercase := false, includeUppercase := false,
              includeNumbers := true, includeSymbols := false,
              excludeAmbiguous := false, wordCount := 2, wordSeparator := "-",
              language := .en } (fun i => i)) := by
  obtain ⟨ws, rest, h1, h2, h3, h4, h5⟩ :=
    C3_word_password_token_structure
      { length := 0, includeLowercase := false, includeUppercase := false,
        includeNumbers := true, includeSymbols := false,
        excludeAmbiguous := false, wordCount := 2, wordSeparator := "-",
        language := .en } (fun i => i) (by decide)
  exact ⟨ws, rest, h1, h2, h3, by simpa using h4, h5⟩

/-- Claim C4: with length 4, alphabet 26, the sequential method and the
basic-CPU profile, the search space is 26^4 = 456976, the effective
hashing speed is floor(500000 / max(1, log2 4)) = 250000, and the
estimated completion time is 456976 / 250000 ≈ 1.83 seconds.  The
hypothesis `jsLog2 4 = 2` is the (exact) IEEE value of `Math.log2(4)`. -/
theorem C4_cpu_basic_scenario (jsLog2 : ℚ → ℚ) (h : jsLog2 4 = 2) :
    calculatePasswordSpace 4 26 sequentialMethod = 456976 ∧
    calculateHashingSpeed jsLog2 (HARDWARE_PROFILES .cpu_basic).baseSpeed
        .cpu_basic 4 = 250000 ∧
    estimatedTimeToComplete jsLog2 4 26 sequentialMethod .cpu_basic =
      456976 / 250000 ∧
    |estimatedTimeToComplete jsLog2 4 26 sequentialMethod .cpu_basic -
        183 / 100| < 1 / 100 := by
  have hspace : calculatePasswordSpace 4 26 sequentialMethod = 456976 := by
    have hval : ((26 : ℕ) : ℚ) ^ (4 : ℕ) * sequentialMethod.complexityMultiplier
        = ((456976 : ℤ) : ℚ) := by
      norm_num [sequentialMethod]
    unfold calculatePasswordSpace
    rw [hval, Int.ceil_intCast]
  have hcast : ((4 : ℕ) : ℚ) = (4 : ℚ) := by norm_num
  have hspeed : calculateHashingSpeed jsLog2
      (HARDWARE_PROFILES .cpu_basic).baseSpeed .cpu_basic 4 = 250000 := by
    have hval : (HARDWARE_PROFILES Hardware.cpu_basic).baseSpeed /
        max 1 (jsLog2 4) = ((250000 : ℤ) : ℚ) := by
      rw [h]
      norm_num [HARDWARE_PROFILES]
    unfold calculateHashingSpeed
    rw [hval, Int.floor_intCast]
  have htime : estimatedTimeToComplete jsLog2 4 26 sequentialMethod
      .cpu_basic = 456976 / 250000 := by
    unfold estimatedTimeToComplete
    rw [hspace, hcast, hspeed]
    norm_num [sequentialMethod]
  refine ⟨hspace, hspeed, htime, ?_⟩
  rw [htime]
  rw [abs_sub_lt_iff]
  norm_num

/-- Witness for C4, instantiating the abstract `Math.log2` with a function
taking the exact IEEE value at 4. -/
theorem C4_witness :
    calculatePasswordSpace 4 26 sequentialMethod = 456976 ∧
    calculateHashingSpeed (fun q => if q = 4 then 2 else 0)
        (HARDWARE_PROFILES .cpu_basic).baseSpeed .cpu_basic 4 = 250000 ∧
    estimatedTimeToComplete (fun q => if q = 4 then 2 else 0) 4 26
        sequentialMethod .cpu_basic = 456976 / 250000 ∧
    |estimatedTimeToComplete (fun q => if q = 4 then 2 else 0) 4 26
        sequentialMethod .cpu_basic - 183 / 100| < 1 / 100 :=
  C4_cpu_basic_scenario (fun q => if q = 4 then 2 else 0) (by norm_num)

/-- Claim C5: with a method covering the full keyspace
(`complexityMultiplier = 1`) and a positive alphabet, the attempts of a
tick never exceed `alphabetSize ^ passwordLength`, for any elapsed time
and any hashing speed; and the tick's progress is the finite value 100
exactly when the attempts equal the search space. -/
theorem C5_attempts_capped_and_progress (alpha len : ℕ) (elapsed : ℚ)
    (speed : ℤ) (m : AttackMethod) (hm : m.complexityMultiplier = 1)
    (ha : 0 < alpha) :
    animateAttempts elapsed speed m (calculatePasswordSpace len alpha m) ≤
      (alpha : ℤ) ^ len ∧
    (animateProgress
        (animateAttempts elapsed speed m (calculatePasswordSpace len alpha m))
        (calculatePasswordSpace len alpha m) = some 100 ↔
      animateAttempts elapsed speed m (calculatePasswordSpace len alpha m) =
        calculatePasswordSpace len alpha m) := by
  have hspace : calculatePasswordSpace len alpha m = (alpha : ℤ) ^ len := by
    unfold calculatePasswordSpace
    rw [hm, mul_one,
      show ((alpha : ℚ) ^ len : ℚ) = (((alpha : ℤ) ^ len : ℤ) : ℚ) by push_cast; ring,
      Int.ceil_intCast]
  have hpos : 0 < calculatePasswordSpace len alpha m := by
    rw [hspace]; positivity
  have hz : ((calculatePasswordSpace len alpha m : ℤ) : ℚ) ≠ 0 := by
    exact_mod_cast hpos.ne'
  constructor
  · rw [← hspace]; exact min_le_right _ _
  · unfold animateProgress jsDiv
    rw [if_neg hz]
    simp only [Option.map_some', Option.some.injEq]
    rw [div_mul_eq_mul_div, div_eq_iff hz]
    constructor
    · intro h
      have : ((animateAttempts elapsed speed m
          (calculatePasswordSpace len alpha m) : ℤ) : ℚ) =
          ((calculatePasswordSpace len alpha m : ℤ) : ℚ) := by linarith
      exact_mod_cast this
    · intro h; rw [h]; ring

/-- Witness for C5 at a concrete tick: alphabet 2, length 1, one second at
speed 2 with the sequential method fills the space exactly. -/
theorem C5_witness :
    animateAttempts 1 2 sequentialMethod
        (calculatePasswordSpace 1 2 sequentialMethod) ≤ (2 : ℤ) ^ (1 : ℕ) ∧
    (animateProgress
        (animateAttempts 1 2 sequentialMethod
          (calculatePasswordSpace 1 2 sequentialMethod))
        (calculatePasswordSpace 1 2 sequentialMethod) = some 100 ↔
      animateAttempts 1 2 sequentialMethod
          (calculatePasswordSpace 1 2 sequentialMethod) =
        calculatePasswordSpace 1 2 sequentialMethod) :=
  C5_attempts_capped_and_progress 2 1 1 2 sequentialMethod rfl (by decide)

/-- Counterexample to claim C6 as stated: at elapsed time zero the tick
computes zero attempts and zero energy cost, and the efficiency division
is performed unguarded, producing a non-finite value (`none`, modelling
JavaScript's 0/0 = NaN), not the claimed well-defined zero. -/
theorem C6_counterexample :
    animateAttempts 0 250000 sequentialMethod 456976 = 0 ∧
    calculateEnergyCost 0 .cpu_basic = 0 ∧
    animateEfficiency (animateAttempts 0 250000 sequentialMethod 456976)
        (calculateEnergyCost 0 .cpu_basic) = none ∧
    animateEfficiency (animateAttempts 0 250000 sequentialMethod 456976)
        (calculateEnergyCost 0 .cpu_basic) ≠ some 0 := by
  have h1 : animateAttempts 0 250000 sequentialMethod 456976 = 0 := by
    unfold animateAttempts
    norm_num [sequentialMethod]
  have h2 : calculateEnergyCost 0 .cpu_basic = 0 := by
    unfold calculateEnergyCost
    norm_num
  have h3 : animateEfficiency 0 0 = none := by
    simp [animateEfficiency, jsDiv]
  rw [h1, h2, h3]
  exact ⟨rfl, rfl, rfl, by simp⟩

/-- Claim C6 amended: the source computes
`attempts / (energyCost * 1000)` with no zero guard, so at zero energy
cost the efficiency is a non-finite IEEE value (NaN or ±Infinity), never
the claimed zero; for non-zero energy cost it is the finite quotient. -/
theorem C6_amended_efficiency_unguarded (attempts : ℤ) (energyCost : ℚ) :
    (energyCost = 0 → animateEfficiency attempts energyCost = none) ∧
    (energyCost ≠ 0 →
      animateEfficiency attempts energyCost =
        some ((attempts : ℚ) / (energyCost * 1000))) := by
  constructor
  · intro h
    simp [animateEfficiency, jsDiv, h]
  · intro h
    unfold animateEfficiency jsDiv
    rw [if_neg (mul_ne_zero h (by norm_num))]

/-- Witness for the amended C6: zero energy gives the non-finite marker,
energy cost 2 gives the finite quotient. -/
theorem C6_amended_witness :
    animateEfficiency 0 0 = none ∧
    animateEfficiency 5 2 = some ((5 : ℚ) / (2 * 1000)) :=
  ⟨(C6_amended_efficiency_unguarded 0 0).1 rfl,
   (C6_amended_efficiency_unguarded 5 2).2 (by norm_num)⟩

/-- Claim C7: from any prior component state, `handleReset` produces a
state with zero elapsed time, zero attempts, zero progress, an empty
time-series buffer, and the simulation not running. -/
theorem C7_reset_clears_state (s : SimulatorState) :
    (handleReset s).stats.timeElapsed = 0 ∧
    (handleReset s).stats.attempts = 0 ∧
    (handleReset s).simulation.progress = 0 ∧
    (handleReset s).graphData = [] ∧
    (handleReset s).simulation.isRunning = false :=
  ⟨rfl, rfl, rfl, rfl, rfl⟩

/-- Claim C8: each tick's buffer update appends the new sample and keeps
exactly the most recent 30 samples in order — the result is always the
suffix of `prev ++ [s]` obtained by dropping all but the last 30 entries
(dropping nothing when the buffer is still small), hence never longer
than 30 and never averaged or merged. -/
theorem C8_graph_buffer_bounded (prev : List GraphSample) (s : GraphSample) :
    (pushGraphSample prev s).length ≤ 30 ∧
    pushGraphSample prev s = (prev ++ [s]).drop (prev.length + 1 - 30) := by
  unfold pushGraphSample
  by_cases h : 30 < (prev ++ [s]).length
  · rw [if_pos h]
    refine ⟨?_, ?_⟩
    · rw [List.length_drop]; omega
    · congr 1
      simp [List.length_append]
  · rw [if_neg h]
    have hle : prev.length + 1 ≤ 30 := by
      simpa [List.length_append] using h
    refine ⟨by simpa [List.length_append] using hle, ?_⟩
    rw [Nat.sub_eq_zero_of_le hle, List.drop_zero]

/-- Claim C10: `calculateHashingSpeed` never reads its `baseSpeed`
parameter — any two base-speed arguments give the same result, which is
always `floor(HARDWARE_PROFILES[hardware].baseSpeed / max(1, log2 length))`. -/
theorem C10_hashing_speed_ignores_baseSpeed (jsLog2 : ℚ → ℚ) (b1 b2 : ℚ)
    (hw : Hardware) (len : ℚ) :
    calculateHashingSpeed jsLog2 b1 hw len =
      calculateHashingSpeed jsLog2 b2 hw len ∧
    calculateHashingSpeed jsLog2 b1 hw len =
      ⌊(HARDWARE_PROFILES hw).baseSpeed / max 1 (jsLog2 len)⌋ :=
  ⟨rfl, rfl⟩

end PasswordGen
